import Mathlib

set_option maxHeartbeats 1000000
set_option maxRecDepth 4000

namespace MemMgr

/-- Value object from the source: `MemoryStats` holds one attribute, `debug`,
a string containing the fully assembled report
(src/td/telegram/MemoryManager.cpp, line 82 and the header it implements). -/
structure MemoryStats where
  debug : String
deriving DecidableEq, Repr

/-- Record of one provider invocation performed during assembly: the provider's
name and the `full` flag passed in that call, if any.  Every call site in
`print_managers_memory_stats` has the shape
`td_->x_->memory_stats(output)` and passes no `full` argument, so the
embedding records `fullArg = none` for each invocation. -/
structure Invocation where
  name : String
  fullArg : Option Bool
deriving DecidableEq, Repr

/-- The mutable state threaded through report assembly: the `output` buffer
(the C++ `vector<string> output`) together with the trace of provider
invocations performed so far. -/
structure AssemblyState where
  output : List String
  calls : List Invocation
deriving DecidableEq, Repr

/-- C++ `output.push_back(s)`: appends one piece to the output buffer. -/
def push_back (s : String) (st : AssemblyState) : AssemblyState :=
  { st with output := st.output ++ [s] }

/-- One call `td_->name_->memory_stats(output)`: the provider appends its
fragment pieces to the output buffer, and the trace records the invocation.
Modelled from the spec: the providers' `memory_stats` bodies are outside this
translation unit; per the StatProvider contract they append zero or more
fragment pieces to the buffer and mutate nothing else, so a provider's
behaviour is its list of appended pieces. -/
def invoke_memory_stats (name : String) (frag : List String) (st : AssemblyState) : AssemblyState :=
  { output := st.output ++ frag, calls := st.calls ++ [⟨name, none⟩] }

/-- One source block
`output.push_back("\"name_\":{"); td_->name_->memory_stats(output); output.push_back("}");`. -/
def providerEntry (name : String) (frag : List String) (st : AssemblyState) : AssemblyState :=
  push_back "\x7d" (invoke_memory_stats name frag (push_back ("\"" ++ name ++ "\":\x7b") st))

/-- Modelled from the spec: a snapshot of the provider state reachable through
the enclosing `Td` context.  One field per manager dereferenced by
`print_managers_memory_stats`, in source order, holding the fragment pieces
that manager's `memory_stats` currently appends (StatProvider contract, spec
section 6); `auth_manager_is_bot_` models `td_->auth_manager_->is_bot()` used by
`get_current_state`.  The manager implementations are outside this translation
unit. -/
structure Td where
  file_manager_ : List String
  business_connection_manager_ : List String
  channel_recommendation_manager_ : List String
  chat_manager_ : List String
  connection_state_manager_ : List String
  inline_message_manager_ : List String
  online_manager_ : List String
  promo_data_manager_ : List String
  star_manager_ : List String
  terms_of_service_manager_ : List String
  user_manager_ : List String
  account_manager_ : List String
  animations_manager_ : List String
  attach_menu_manager_ : List String
  audios_manager_ : List String
  auth_manager_ : List String
  autosave_manager_ : List String
  background_manager_ : List String
  boost_manager_ : List String
  bot_info_manager_ : List String
  business_manager_ : List String
  callback_queries_manager_ : List String
  common_dialog_manager_ : List String
  country_info_manager_ : List String
  dialog_action_manager_ : List String
  dialog_filter_manager_ : List String
  dialog_invite_link_manager_ : List String
  dialog_manager_ : List String
  dialog_participant_manager_ : List String
  documents_manager_ : List String
  download_manager_ : List String
  file_reference_manager_ : List String
  forum_topic_manager_ : List String
  game_manager_ : List String
  group_call_manager_ : List String
  inline_queries_manager_ : List String
  link_manager_ : List String
  message_import_manager_ : List String
  messages_manager_ : List String
  notification_manager_ : List String
  notification_settings_manager_ : List String
  option_manager_ : List String
  people_nearby_manager_ : List String
  poll_manager_ : List String
  privacy_manager_ : List String
  quick_reply_manager_ : List String
  reaction_manager_ : List String
  saved_messages_manager_ : List String
  sponsored_message_manager_ : List String
  statistics_manager_ : List String
  stickers_manager_ : List String
  story_manager_ : List String
  theme_manager_ : List String
  time_zone_manager_ : List String
  top_dialog_manager_ : List String
  transcription_manager_ : List String
  translation_manager_ : List String
  updates_manager_ : List String
  video_notes_manager_ : List String
  videos_manager_ : List String
  voice_notes_manager_ : List String
  web_pages_manager_ : List String
  auth_manager_is_bot_ : Bool
deriving DecidableEq, Repr

/-- MemoryManager::print_managers_memory_stats (src/td/telegram/MemoryManager.cpp,
lines 124-248): one `providerEntry` per manager, in source order, with
`output.push_back(",")` between consecutive entries and no trailing comma. -/
def print_managers_memory_stats (td : Td) (st : AssemblyState) : AssemblyState :=
  st
  |> providerEntry "file_manager_" td.file_manager_
  |> push_back ","
  |> providerEntry "business_connection_manager_" td.business_connection_manager_
  |> push_back ","
  |> providerEntry "channel_recommendation_manager_" td.channel_recommendation_manager_
  |> push_back ","
  |> providerEntry "chat_manager_" td.chat_manager_
  |> push_back ","
  |> providerEntry "connection_state_manager_" td.connection_state_manager_
  |> push_back ","
  |> providerEntry "inline_message_manager_" td.inline_message_manager_
  |> push_back ","
  |> providerEntry "online_manager_" td.online_manager_
  |> push_back ","
  |> providerEntry "promo_data_manager_" td.promo_data_manager_
  |> push_back ","
  |> providerEntry "star_manager_" td.star_manager_
  |> push_back ","
  |> providerEntry "terms_of_service_manager_" td.terms_of_service_manager_
  |> push_back ","
  |> providerEntry "user_manager_" td.user_manager_
  |> push_back ","
  |> providerEntry "account_manager_" td.account_manager_
  |> push_back ","
  |> providerEntry "animations_manager_" td.animations_manager_
  |> push_back ","
  |> providerEntry "attach_menu_manager_" td.attach_menu_manager_
  |> push_back ","
  |> providerEntry "audios_manager_" td.audios_manager_
  |> push_back ","
  |> providerEntry "auth_manager_" td.auth_manager_
  |> push_back ","
  |> providerEntry "autosave_manager_" td.autosave_manager_
  |> push_back ","
  |> providerEntry "background_manager_" td.background_manager_
  |> push_back ","
  |> providerEntry "boost_manager_" td.boost_manager_
  |> push_back ","
  |> providerEntry "bot_info_manager_" td.bot_info_manager_
  |> push_back ","
  |> providerEntry "business_manager_" td.business_manager_
  |> push_back ","
  |> providerEntry "callback_queries_manager_" td.callback_queries_manager_
  |> push_back ","
  |> providerEntry "common_dialog_manager_" td.common_dialog_manager_
  |> push_back ","
  |> providerEntry "country_info_manager_" td.country_info_manager_
  |> push_back ","
  |> providerEntry "dialog_action_manager_" td.dialog_action_manager_
  |> push_back ","
  |> providerEntry "dialog_filter_manager_" td.dialog_filter_manager_
  |> push_back ","
  |> providerEntry "dialog_invite_link_manager_" td.dialog_invite_link_manager_
  |> push_back ","
  |> providerEntry "dialog_manager_" td.dialog_manager_
  |> push_back ","
  |> providerEntry "dialog_participant_manager_" td.dialog_participant_manager_
  |> push_back ","
  |> providerEntry "documents_manager_" td.documents_manager_
  |> push_back ","
  |> providerEntry "download_manager_" td.download_manager_
  |> push_back ","
  |> providerEntry "file_reference_manager_" td.file_reference_manager_
  |> push_back ","
  |> providerEntry "forum_topic_manager_" td.forum_topic_manager_
  |> push_back ","
  |> providerEntry "game_manager_" td.game_manager_
  |> push_back ","
  |> providerEntry "group_call_manager_" td.group_call_manager_
  |> push_back ","
  |> providerEntry "inline_queries_manager_" td.inline_queries_manager_
  |> push_back ","
  |> providerEntry "link_manager_" td.link_manager_
  |> push_back ","
  |> providerEntry "message_import_manager_" td.message_import_manager_
  |> push_back ","
  |> providerEntry "messages_manager_" td.messages_manager_
  |> push_back ","
  |> providerEntry "notification_manager_" td.notification_manager_
  |> push_back ","
  |> providerEntry "notification_settings_manager_" td.notification_settings_manager_
  |> push_back ","
  |> providerEntry "option_manager_" td.option_manager_
  |> push_back ","
  |> providerEntry "people_nearby_manager_" td.people_nearby_manager_
  |> push_back ","
  |> providerEntry "poll_manager_" td.poll_manager_
  |> push_back ","
  |> providerEntry "privacy_manager_" td.privacy_manager_
  |> push_back ","
  |> providerEntry "quick_reply_manager_" td.quick_reply_manager_
  |> push_back ","
  |> providerEntry "reaction_manager_" td.reaction_manager_
  |> push_back ","
  |> providerEntry "saved_messages_manager_" td.saved_messages_manager_
  |> push_back ","
  |> providerEntry "sponsored_message_manager_" td.sponsored_message_manager_
  |> push_back ","
  |> providerEntry "statistics_manager_" td.statistics_manager_
  |> push_back ","
  |> providerEntry "stickers_manager_" td.stickers_manager_
  |> push_back ","
  |> providerEntry "story_manager_" td.story_manager_
  |> push_back ","
  |> providerEntry "theme_manager_" td.theme_manager_
  |> push_back ","
  |> providerEntry "time_zone_manager_" td.time_zone_manager_
  |> push_back ","
  |> providerEntry "top_dialog_manager_" td.top_dialog_manager_
  |> push_back ","
  |> providerEntry "transcription_manager_" td.transcription_manager_
  |> push_back ","
  |> providerEntry "translation_manager_" td.translation_manager_
  |> push_back ","
  |> providerEntry "updates_manager_" td.updates_manager_
  |> push_back ","
  |> providerEntry "video_notes_manager_" td.video_notes_manager_
  |> push_back ","
  |> providerEntry "videos_manager_" td.videos_manager_
  |> push_back ","
  |> providerEntry "voice_notes_manager_" td.voice_notes_manager_
  |> push_back ","
  |> providerEntry "web_pages_manager_" td.web_pages_manager_

/-- Everything observable about one `get_memory_stats` call: the provider state
after the call, the list of values the promise was resolved with (one entry per
`promise.set_value`), and the trace of provider invocations. -/
structure GetResult where
  td : Td
  resolutions : List MemoryStats
  calls : List Invocation
deriving Repr

/-- MemoryManager::get_memory_stats (src/td/telegram/MemoryManager.cpp, lines
96-114): builds the output buffer, delegates to `print_managers_memory_stats`,
accumulates the pieces into one string `s`, wraps it in `MemoryStats` and
resolves the promise with it.  The method is `const` and mutates no provider,
so the provider state is returned unchanged; `full` is a parameter of the
source function and is never read by it. -/
def get_memory_stats (td : Td) (full : Bool) : GetResult :=
  let st : AssemblyState := { output := [], calls := [] }
  let st := push_back "\x7b" st
  let st := push_back "\"memory_stats\":\x7b" st
  let st := print_managers_memory_stats td st
  let st := push_back "\x7d" st
  let st := push_back "\x7d" st
  let s := String.join st.output
  let value : MemoryStats := ⟨s⟩
  { td := td, resolutions := [value], calls := st.calls }

/-- Modelled from the spec: an opaque outbound notification entry
(`td_api::object_ptr<td_api::Update>`); its payload is irrelevant to this core. -/
structure Update where
  id : Nat
deriving DecidableEq, Repr

/-- MemoryManager::get_current_state (src/td/telegram/MemoryManager.cpp, lines
116-122): `if (td_->auth_manager_->is_bot()) { return; }` and otherwise falls
through past the comment `// Never return updates`.  Both paths leave the
caller-supplied updates sequence and all state untouched; the method is
`const`, so the state is returned alongside the sequence. -/
def get_current_state (td : Td) (updates : List Update) : Td × List Update :=
  if td.auth_manager_is_bot_ then
    (td, updates)
  else
    (td, updates)

/-- The provider registry of this aggregator, read off the source: the ordered
list of (name, fragment pieces) pairs in the exact order
`print_managers_memory_stats` emits them. -/
def registry (td : Td) : List (String × List String) :=
  [("file_manager_", td.file_manager_),
   ("business_connection_manager_", td.business_connection_manager_),
   ("channel_recommendation_manager_", td.channel_recommendation_manager_),
   ("chat_manager_", td.chat_manager_),
   ("connection_state_manager_", td.connection_state_manager_),
   ("inline_message_manager_", td.inline_message_manager_),
   ("online_manager_", td.online_manager_),
   ("promo_data_manager_", td.promo_data_manager_),
   ("star_manager_", td.star_manager_),
   ("terms_of_service_manager_", td.terms_of_service_manager_),
   ("user_manager_", td.user_manager_),
   ("account_manager_", td.account_manager_),
   ("animations_manager_", td.animations_manager_),
   ("attach_menu_manager_", td.attach_menu_manager_),
   ("audios_manager_", td.audios_manager_),
   ("auth_manager_", td.auth_manager_),
   ("autosave_manager_", td.autosave_manager_),
   ("background_manager_", td.background_manager_),
   ("boost_manager_", td.boost_manager_),
   ("bot_info_manager_", td.bot_info_manager_),
   ("business_manager_", td.business_manager_),
   ("callback_queries_manager_", td.callback_queries_manager_),
   ("common_dialog_manager_", td.common_dialog_manager_),
   ("country_info_manager_", td.country_info_manager_),
   ("dialog_action_manager_", td.dialog_action_manager_),
   ("dialog_filter_manager_", td.dialog_filter_manager_),
   ("dialog_invite_link_manager_", td.dialog_invite_link_manager_),
   ("dialog_manager_", td.dialog_manager_),
   ("dialog_participant_manager_", td.dialog_participant_manager_),
   ("documents_manager_", td.documents_manager_),
   ("download_manager_", td.download_manager_),
   ("file_reference_manager_", td.file_reference_manager_),
   ("forum_topic_manager_", td.forum_topic_manager_),
   ("game_manager_", td.game_manager_),
   ("group_call_manager_", td.group_call_manager_),
   ("inline_queries_manager_", td.inline_queries_manager_),
   ("link_manager_", td.link_manager_),
   ("message_import_manager_", td.message_import_manager_),
   ("messages_manager_", td.messages_manager_),
   ("notification_manager_", td.notification_manager_),
   ("notification_settings_manager_", td.notification_settings_manager_),
   ("option_manager_", td.option_manager_),
   ("people_nearby_manager_", td.people_nearby_manager_),
   ("poll_manager_", td.poll_manager_),
   ("privacy_manager_", td.privacy_manager_),
   ("quick_reply_manager_", td.quick_reply_manager_),
   ("reaction_manager_", td.reaction_manager_),
   ("saved_messages_manager_", td.saved_messages_manager_),
   ("sponsored_message_manager_", td.sponsored_message_manager_),
   ("statistics_manager_", td.statistics_manager_),
   ("stickers_manager_", td.stickers_manager_),
   ("story_manager_", td.story_manager_),
   ("theme_manager_", td.theme_manager_),
   ("time_zone_manager_", td.time_zone_manager_),
   ("top_dialog_manager_", td.top_dialog_manager_),
   ("transcription_manager_", td.transcription_manager_),
   ("translation_manager_", td.translation_manager_),
   ("updates_manager_", td.updates_manager_),
   ("video_notes_manager_", td.video_notes_manager_),
   ("videos_manager_", td.videos_manager_),
   ("voice_notes_manager_", td.voice_notes_manager_),
   ("web_pages_manager_", td.web_pages_manager_)]

/-- The registry's provider names, in registry order. -/
def managerNames : List String :=
  ["file_manager_",
   "business_connection_manager_",
   "channel_recommendation_manager_",
   "chat_manager_",
   "connection_state_manager_",
   "inline_message_manager_",
   "online_manager_",
   "promo_data_manager_",
   "star_manager_",
   "terms_of_service_manager_",
   "user_manager_",
   "account_manager_",
   "animations_manager_",
   "attach_menu_manager_",
   "audios_manager_",
   "auth_manager_",
   "autosave_manager_",
   "background_manager_",
   "boost_manager_",
   "bot_info_manager_",
   "business_manager_",
   "callback_queries_manager_",
   "common_dialog_manager_",
   "country_info_manager_",
   "dialog_action_manager_",
   "dialog_filter_manager_",
   "dialog_invite_link_manager_",
   "dialog_manager_",
   "dialog_participant_manager_",
   "documents_manager_",
   "download_manager_",
   "file_reference_manager_",
   "forum_topic_manager_",
   "game_manager_",
   "group_call_manager_",
   "inline_queries_manager_",
   "link_manager_",
   "message_import_manager_",
   "messages_manager_",
   "notification_manager_",
   "notification_settings_manager_",
   "option_manager_",
   "people_nearby_manager_",
   "poll_manager_",
   "privacy_manager_",
   "quick_reply_manager_",
   "reaction_manager_",
   "saved_messages_manager_",
   "sponsored_message_manager_",
   "statistics_manager_",
   "stickers_manager_",
   "story_manager_",
   "theme_manager_",
   "time_zone_manager_",
   "top_dialog_manager_",
   "transcription_manager_",
   "translation_manager_",
   "updates_manager_",
   "video_notes_manager_",
   "videos_manager_",
   "voice_notes_manager_",
   "web_pages_manager_"]

/-- The output pieces one registry entry contributes:
`"<name>":{<fragment pieces><close>`. -/
def entryPieces (p : String × List String) : List String :=
  ("\"" ++ p.1 ++ "\":\x7b") :: (p.2 ++ ["\x7d"])

/-- Comma separation of entry piece lists: a single "," between consecutive
entries, no leading or trailing comma. -/
def commaSeparate : List (List String) → List String
  | [] => []
  | [e] => e
  | e :: rest => e ++ ("," :: commaSeparate rest)

/-- Modelled from the spec: the ReportAssembler algorithm of spec section 4.2
over an arbitrary ordered provider registry (the source hard-codes one fixed
62-provider registry; `print_managers_output` below proves the source equal to
this assembler on that registry).  The pieces of the envelope, in emission
order. -/
def assembleReportPieces (regs : List (String × List String)) : List String :=
  ["\x7b", "\"memory_stats\":\x7b"] ++ commaSeparate (regs.map entryPieces) ++ ["\x7d", "\x7d"]

/-- Modelled from the spec: the assembled report string, the concatenation of
the envelope pieces in emission order. -/
def assembleReport (regs : List (String × List String)) : String :=
  String.join (assembleReportPieces regs)

/-- Modelled from the spec: provider state in which a provider's fragment
generation may fail (spec section 7's fault-isolation discussion).  A field is
`Except.ok pieces` when the manager's `memory_stats` appends `pieces` normally
and `Except.error ()` when it signals failure (a C++ exception). -/
structure TdE where
  file_manager_ : Except Unit (List String)
  business_connection_manager_ : Except Unit (List String)
  channel_recommendation_manager_ : Except Unit (List String)
  chat_manager_ : Except Unit (List String)
  connection_state_manager_ : Except Unit (List String)
  inline_message_manager_ : Except Unit (List String)
  online_manager_ : Except Unit (List String)
  promo_data_manager_ : Except Unit (List String)
  star_manager_ : Except Unit (List String)
  terms_of_service_manager_ : Except Unit (List String)
  user_manager_ : Except Unit (List String)
  account_manager_ : Except Unit (List String)
  animations_manager_ : Except Unit (List String)
  attach_menu_manager_ : Except Unit (List String)
  audios_manager_ : Except Unit (List String)
  auth_manager_ : Except Unit (List String)
  autosave_manager_ : Except Unit (List String)
  background_manager_ : Except Unit (List String)
  boost_manager_ : Except Unit (List String)
  bot_info_manager_ : Except Unit (List String)
  business_manager_ : Except Unit (List String)
  callback_queries_manager_ : Except Unit (List String)
  common_dialog_manager_ : Except Unit (List String)
  country_info_manager_ : Except Unit (List String)
  dialog_action_manager_ : Except Unit (List String)
  dialog_filter_manager_ : Except Unit (List String)
  dialog_invite_link_manager_ : Except Unit (List String)
  dialog_manager_ : Except Unit (List String)
  dialog_participant_manager_ : Except Unit (List String)
  documents_manager_ : Except Unit (List String)
  download_manager_ : Except Unit (List String)
  file_reference_manager_ : Except Unit (List String)
  forum_topic_manager_ : Except Unit (List String)
  game_manager_ : Except Unit (List String)
  group_call_manager_ : Except Unit (List String)
  inline_queries_manager_ : Except Unit (List String)
  link_manager_ : Except Unit (List String)
  message_import_manager_ : Except Unit (List String)
  messages_manager_ : Except Unit (List String)
  notification_manager_ : Except Unit (List String)
  notification_settings_manager_ : Except Unit (List String)
  option_manager_ : Except Unit (List String)
  people_nearby_manager_ : Except Unit (List String)
  poll_manager_ : Except Unit (List String)
  privacy_manager_ : Except Unit (List String)
  quick_reply_manager_ : Except Unit (List String)
  reaction_manager_ : Except Unit (List String)
  saved_messages_manager_ : Except Unit (List String)
  sponsored_message_manager_ : Except Unit (List String)
  statistics_manager_ : Except Unit (List String)
  stickers_manager_ : Except Unit (List String)
  story_manager_ : Except Unit (List String)
  theme_manager_ : Except Unit (List String)
  time_zone_manager_ : Except Unit (List String)
  top_dialog_manager_ : Except Unit (List String)
  transcription_manager_ : Except Unit (List String)
  translation_manager_ : Except Unit (List String)
  updates_manager_ : Except Unit (List String)
  video_notes_manager_ : Except Unit (List String)
  videos_manager_ : Except Unit (List String)
  voice_notes_manager_ : Except Unit (List String)
  web_pages_manager_ : Except Unit (List String)
deriving Repr

/-- Assembly state for fallible providers: once `failed` is set, an exception
is propagating and no further statement of the source executes. -/
structure AssemblyStateE where
  output : List String
  calls : List Invocation
  failed : Bool
deriving DecidableEq, Repr

/-- `output.push_back(s)` under exception semantics: a no-op while an
exception is propagating. -/
def pushE (s : String) (st : AssemblyStateE) : AssemblyStateE :=
  if st.failed then st else { st with output := st.output ++ [s] }

/-- One fallible call `td_->name_->memory_stats(output)`: skipped while an
exception is propagating; otherwise the provider either appends its pieces or
throws, and the source wraps no provider call in a try block, so a throw sets
`failed` and aborts the rest of the assembly.  The invocation itself is
recorded either way: the provider was called. -/
def invokeE (name : String) (frag : Except Unit (List String)) (st : AssemblyStateE) : AssemblyStateE :=
  if st.failed then st
  else
    match frag with
    | Except.ok fs => { st with output := st.output ++ fs, calls := st.calls ++ [⟨name, none⟩] }
    | Except.error _ => { st with calls := st.calls ++ [⟨name, none⟩], failed := true }

/-- One source block of `print_managers_memory_stats` under exception
semantics. -/
def providerEntryE (name : String) (frag : Except Unit (List String)) (st : AssemblyStateE) : AssemblyStateE :=
  pushE "\x7d" (invokeE name frag (pushE ("\"" ++ name ++ "\":\x7b") st))

/-- MemoryManager::print_managers_memory_stats under exception semantics:
the same statement sequence as `print_managers_memory_stats`. -/
def print_managers_memory_statsE (td : TdE) (st : AssemblyStateE) : AssemblyStateE :=
  st
  |> providerEntryE "file_manager_" td.file_manager_
  |> pushE ","
  |> providerEntryE "business_connection_manager_" td.business_connection_manager_
  |> pushE ","
  |> providerEntryE "channel_recommendation_manager_" td.channel_recommendation_manager_
  |> pushE ","
  |> providerEntryE "chat_manager_" td.chat_manager_
  |> pushE ","
  |> providerEntryE "connection_state_manager_" td.connection_state_manager_
  |> pushE ","
  |> providerEntryE "inline_message_manager_" td.inline_message_manager_
  |> pushE ","
  |> providerEntryE "online_manager_" td.online_manager_
  |> pushE ","
  |> providerEntryE "promo_data_manager_" td.promo_data_manager_
  |> pushE ","
  |> providerEntryE "star_manager_" td.star_manager_
  |> pushE ","
  |> providerEntryE "terms_of_service_manager_" td.terms_of_service_manager_
  |> pushE ","
  |> providerEntryE "user_manager_" td.user_manager_
  |> pushE ","
  |> providerEntryE "account_manager_" td.account_manager_
  |> pushE ","
  |> providerEntryE "animations_manager_" td.animations_manager_
  |> pushE ","
  |> providerEntryE "attach_menu_manager_" td.attach_menu_manager_
  |> pushE ","
  |> providerEntryE "audios_manager_" td.audios_manager_
  |> pushE ","
  |> providerEntryE "auth_manager_" td.auth_manager_
  |> pushE ","
  |> providerEntryE "autosave_manager_" td.autosave_manager_
  |> pushE ","
  |> providerEntryE "background_manager_" td.background_manager_
  |> pushE ","
  |> providerEntryE "boost_manager_" td.boost_manager_
  |> pushE ","
  |> providerEntryE "bot_info_manager_" td.bot_info_manager_
  |> pushE ","
  |> providerEntryE "business_manager_" td.business_manager_
  |> pushE ","
  |> providerEntryE "callback_queries_manager_" td.callback_queries_manager_
  |> pushE ","
  |> providerEntryE "common_dialog_manager_" td.common_dialog_manager_
  |> pushE ","
  |> providerEntryE "country_info_manager_" td.country_info_manager_
  |> pushE ","
  |> providerEntryE "dialog_action_manager_" td.dialog_action_manager_
  |> pushE ","
  |> providerEntryE "dialog_filter_manager_" td.dialog_filter_manager_
  |> pushE ","
  |> providerEntryE "dialog_invite_link_manager_" td.dialog_invite_link_manager_
  |> pushE ","
  |> providerEntryE "dialog_manager_" td.dialog_manager_
  |> pushE ","
  |> providerEntryE "dialog_participant_manager_" td.dialog_participant_manager_
  |> pushE ","
  |> providerEntryE "documents_manager_" td.documents_manager_
  |> pushE ","
  |> providerEntryE "download_manager_" td.download_manager_
  |> pushE ","
  |> providerEntryE "file_reference_manager_" td.file_reference_manager_
  |> pushE ","
  |> providerEntryE "forum_topic_manager_" td.forum_topic_manager_
  |> pushE ","
  |> providerEntryE "game_manager_" td.game_manager_
  |> pushE ","
  |> providerEntryE "group_call_manager_" td.group_call_manager_
  |> pushE ","
  |> providerEntryE "inline_queries_manager_" td.inline_queries_manager_
  |> pushE ","
  |> providerEntryE "link_manager_" td.link_manager_
  |> pushE ","
  |> providerEntryE "message_import_manager_" td.message_import_manager_
  |> pushE ","
  |> providerEntryE "messages_manager_" td.messages_manager_
  |> pushE ","
  |> providerEntryE "notification_manager_" td.notification_manager_
  |> pushE ","
  |> providerEntryE "notification_settings_manager_" td.notification_settings_manager_
  |> pushE ","
  |> providerEntryE "option_manager_" td.option_manager_
  |> pushE ","
  |> providerEntryE "people_nearby_manager_" td.people_nearby_manager_
  |> pushE ","
  |> providerEntryE "poll_manager_" td.poll_manager_
  |> pushE ","
  |> providerEntryE "privacy_manager_" td.privacy_manager_
  |> pushE ","
  |> providerEntryE "quick_reply_manager_" td.quick_reply_manager_
  |> pushE ","
  |> providerEntryE "reaction_manager_" td.reaction_manager_
  |> pushE ","
  |> providerEntryE "saved_messages_manager_" td.saved_messages_manager_
  |> pushE ","
  |> providerEntryE "sponsored_message_manager_" td.sponsored_message_manager_
  |> pushE ","
  |> providerEntryE "statistics_manager_" td.statistics_manager_
  |> pushE ","
  |> providerEntryE "stickers_manager_" td.stickers_manager_
  |> pushE ","
  |> providerEntryE "story_manager_" td.story_manager_
  |> pushE ","
  |> providerEntryE "theme_manager_" td.theme_manager_
  |> pushE ","
  |> providerEntryE "time_zone_manager_" td.time_zone_manager_
  |> pushE ","
  |> providerEntryE "top_dialog_manager_" td.top_dialog_manager_
  |> pushE ","
  |> providerEntryE "transcription_manager_" td.transcription_manager_
  |> pushE ","
  |> providerEntryE "translation_manager_" td.translation_manager_
  |> pushE ","
  |> providerEntryE "updates_manager_" td.updates_manager_
  |> pushE ","
  |> providerEntryE "video_notes_manager_" td.video_notes_manager_
  |> pushE ","
  |> providerEntryE "videos_manager_" td.videos_manager_
  |> pushE ","
  |> providerEntryE "voice_notes_manager_" td.voice_notes_manager_
  |> pushE ","
  |> providerEntryE "web_pages_manager_" td.web_pages_manager_

/-- Observables of one `get_memory_stats` call under exception semantics. -/
structure GetResultE where
  resolutions : List MemoryStats
  calls : List Invocation
  failed : Bool
deriving DecidableEq, Repr

/-- MemoryManager::get_memory_stats under exception semantics: if any provider
call threw, the exception propagates out of the function and
`promise.set_value` is never reached, so the promise is resolved with nothing;
otherwise exactly one resolution is delivered as in `get_memory_stats`. -/
def get_memory_statsE (td : TdE) (full : Bool) : GetResultE :=
  let st : AssemblyStateE := { output := [], calls := [], failed := false }
  let st := pushE "\x7b" st
  let st := pushE "\"memory_stats\":\x7b" st
  let st := print_managers_memory_statsE td st
  let st := pushE "\x7d" st
  let st := pushE "\x7d" st
  { resolutions := if st.failed then [] else [⟨String.join st.output⟩],
    calls := st.calls,
    failed := st.failed }

/-- A concrete provider state: every provider appends nothing and the session
is not a bot session. -/
def td0 : Td :=
  { file_manager_ := [],
    business_connection_manager_ := [],
    channel_recommendation_manager_ := [],
    chat_manager_ := [],
    connection_state_manager_ := [],
    inline_message_manager_ := [],
    online_manager_ := [],
    promo_data_manager_ := [],
    star_manager_ := [],
    terms_of_service_manager_ := [],
    user_manager_ := [],
    account_manager_ := [],
    animations_manager_ := [],
    attach_menu_manager_ := [],
    audios_manager_ := [],
    auth_manager_ := [],
    autosave_manager_ := [],
    background_manager_ := [],
    boost_manager_ := [],
    bot_info_manager_ := [],
    business_manager_ := [],
    callback_queries_manager_ := [],
    common_dialog_manager_ := [],
    country_info_manager_ := [],
    dialog_action_manager_ := [],
    dialog_filter_manager_ := [],
    dialog_invite_link_manager_ := [],
    dialog_manager_ := [],
    dialog_participant_manager_ := [],
    documents_manager_ := [],
    download_manager_ := [],
    file_reference_manager_ := [],
    forum_topic_manager_ := [],
    game_manager_ := [],
    group_call_manager_ := [],
    inline_queries_manager_ := [],
    link_manager_ := [],
    message_import_manager_ := [],
    messages_manager_ := [],
    notification_manager_ := [],
    notification_settings_manager_ := [],
    option_manager_ := [],
    people_nearby_manager_ := [],
    poll_manager_ := [],
    privacy_manager_ := [],
    quick_reply_manager_ := [],
    reaction_manager_ := [],
    saved_messages_manager_ := [],
    sponsored_message_manager_ := [],
    statistics_manager_ := [],
    stickers_manager_ := [],
    story_manager_ := [],
    theme_manager_ := [],
    time_zone_manager_ := [],
    top_dialog_manager_ := [],
    transcription_manager_ := [],
    translation_manager_ := [],
    updates_manager_ := [],
    video_notes_manager_ := [],
    videos_manager_ := [],
    voice_notes_manager_ := [],
    web_pages_manager_ := [],
    auth_manager_is_bot_ := false }

/-- A concrete fallible provider state: the first registered provider
(file_manager_) fails, every other provider succeeds with an empty fragment. -/
def tdE0 : TdE :=
  { file_manager_ := Except.error (),
    business_connection_manager_ := Except.ok [],
    channel_recommendation_manager_ := Except.ok [],
    chat_manager_ := Except.ok [],
    connection_state_manager_ := Except.ok [],
    inline_message_manager_ := Except.ok [],
    online_manager_ := Except.ok [],
    promo_data_manager_ := Except.ok [],
    star_manager_ := Except.ok [],
    terms_of_service_manager_ := Except.ok [],
    user_manager_ := Except.ok [],
    account_manager_ := Except.ok [],
    animations_manager_ := Except.ok [],
    attach_menu_manager_ := Except.ok [],
    audios_manager_ := Except.ok [],
    auth_manager_ := Except.ok [],
    autosave_manager_ := Except.ok [],
    background_manager_ := Except.ok [],
    boost_manager_ := Except.ok [],
    bot_info_manager_ := Except.ok [],
    business_manager_ := Except.ok [],
    callback_queries_manager_ := Except.ok [],
    common_dialog_manager_ := Except.ok [],
    country_info_manager_ := Except.ok [],
    dialog_action_manager_ := Except.ok [],
    dialog_filter_manager_ := Except.ok [],
    dialog_invite_link_manager_ := Except.ok [],
    dialog_manager_ := Except.ok [],
    dialog_participant_manager_ := Except.ok [],
    documents_manager_ := Except.ok [],
    download_manager_ := Except.ok [],
    file_reference_manager_ := Except.ok [],
    forum_topic_manager_ := Except.ok [],
    game_manager_ := Except.ok [],
    group_call_manager_ := Except.ok [],
    inline_queries_manager_ := Except.ok [],
    link_manager_ := Except.ok [],
    message_import_manager_ := Except.ok [],
    messages_manager_ := Except.ok [],
    notification_manager_ := Except.ok [],
    notification_settings_manager_ := Except.ok [],
    option_manager_ := Except.ok [],
    people_nearby_manager_ := Except.ok [],
    poll_manager_ := Except.ok [],
    privacy_manager_ := Except.ok [],
    quick_reply_manager_ := Except.ok [],
    reaction_manager_ := Except.ok [],
    saved_messages_manager_ := Except.ok [],
    sponsored_message_manager_ := Except.ok [],
    statistics_manager_ := Except.ok [],
    stickers_manager_ := Except.ok [],
    story_manager_ := Except.ok [],
    theme_manager_ := Except.ok [],
    time_zone_manager_ := Except.ok [],
    top_dialog_manager_ := Except.ok [],
    transcription_manager_ := Except.ok [],
    translation_manager_ := Except.ok [],
    updates_manager_ := Except.ok [],
    video_notes_manager_ := Except.ok [],
    videos_manager_ := Except.ok [],
    voice_notes_manager_ := Except.ok [],
    web_pages_manager_ := Except.ok [] }

/-- The fallible provider registry, read off the source in the same order as
`registry`: the ordered list of (name, fallible fragment) pairs. -/
def registryE (td : TdE) : List (String × Except Unit (List String)) :=
  [("file_manager_", td.file_manager_),
   ("business_connection_manager_", td.business_connection_manager_),
   ("channel_recommendation_manager_", td.channel_recommendation_manager_),
   ("chat_manager_", td.chat_manager_),
   ("connection_state_manager_", td.connection_state_manager_),
   ("inline_message_manager_", td.inline_message_manager_),
   ("online_manager_", td.online_manager_),
   ("promo_data_manager_", td.promo_data_manager_),
   ("star_manager_", td.star_manager_),
   ("terms_of_service_manager_", td.terms_of_service_manager_),
   ("user_manager_", td.user_manager_),
   ("account_manager_", td.account_manager_),
   ("animations_manager_", td.animations_manager_),
   ("attach_menu_manager_", td.attach_menu_manager_),
   ("audios_manager_", td.audios_manager_),
   ("auth_manager_", td.auth_manager_),
   ("autosave_manager_", td.autosave_manager_),
   ("background_manager_", td.background_manager_),
   ("boost_manager_", td.boost_manager_),
   ("bot_info_manager_", td.bot_info_manager_),
   ("business_manager_", td.business_manager_),
   ("callback_queries_manager_", td.callback_queries_manager_),
   ("common_dialog_manager_", td.common_dialog_manager_),
   ("country_info_manager_", td.country_info_manager_),
   ("dialog_action_manager_", td.dialog_action_manager_),
   ("dialog_filter_manager_", td.dialog_filter_manager_),
   ("dialog_invite_link_manager_", td.dialog_invite_link_manager_),
   ("dialog_manager_", td.dialog_manager_),
   ("dialog_participant_manager_", td.dialog_participant_manager_),
   ("documents_manager_", td.documents_manager_),
   ("download_manager_", td.download_manager_),
   ("file_reference_manager_", td.file_reference_manager_),
   ("forum_topic_manager_", td.forum_topic_manager_),
   ("game_manager_", td.game_manager_),
   ("group_call_manager_", td.group_call_manager_),
   ("inline_queries_manager_", td.inline_queries_manager_),
   ("link_manager_", td.link_manager_),
   ("message_import_manager_", td.message_import_manager_),
   ("messages_manager_", td.messages_manager_),
   ("notification_manager_", td.notification_manager_),
   ("notification_settings_manager_", td.notification_settings_manager_),
   ("option_manager_", td.option_manager_),
   ("people_nearby_manager_", td.people_nearby_manager_),
   ("poll_manager_", td.poll_manager_),
   ("privacy_manager_", td.privacy_manager_),
   ("quick_reply_manager_", td.quick_reply_manager_),
   ("reaction_manager_", td.reaction_manager_),
   ("saved_messages_manager_", td.saved_messages_manager_),
   ("sponsored_message_manager_", td.sponsored_message_manager_),
   ("statistics_manager_", td.statistics_manager_),
   ("stickers_manager_", td.stickers_manager_),
   ("story_manager_", td.story_manager_),
   ("theme_manager_", td.theme_manager_),
   ("time_zone_manager_", td.time_zone_manager_),
   ("top_dialog_manager_", td.top_dialog_manager_),
   ("transcription_manager_", td.transcription_manager_),
   ("translation_manager_", td.translation_manager_),
   ("updates_manager_", td.updates_manager_),
   ("video_notes_manager_", td.video_notes_manager_),
   ("videos_manager_", td.videos_manager_),
   ("voice_notes_manager_", td.voice_notes_manager_),
   ("web_pages_manager_", td.web_pages_manager_)]

/-- A concrete fallible provider state in which a provider other than the
first fails: the second registered provider (business_connection_manager_)
fails, every other provider succeeds with an empty fragment. -/
def tdE1 : TdE :=
  { file_manager_ := Except.ok [],
    business_connection_manager_ := Except.error (),
    channel_recommendation_manager_ := Except.ok [],
    chat_manager_ := Except.ok [],
    connection_state_manager_ := Except.ok [],
    inline_message_manager_ := Except.ok [],
    online_manager_ := Except.ok [],
    promo_data_manager_ := Except.ok [],
    star_manager_ := Except.ok [],
    terms_of_service_manager_ := Except.ok [],
    user_manager_ := Except.ok [],
    account_manager_ := Except.ok [],
    animations_manager_ := Except.ok [],
    attach_menu_manager_ := Except.ok [],
    audios_manager_ := Except.ok [],
    auth_manager_ := Except.ok [],
    autosave_manager_ := Except.ok [],
    background_manager_ := Except.ok [],
    boost_manager_ := Except.ok [],
    bot_info_manager_ := Except.ok [],
    business_manager_ := Except.ok [],
    callback_queries_manager_ := Except.ok [],
    common_dialog_manager_ := Except.ok [],
    country_info_manager_ := Except.ok [],
    dialog_action_manager_ := Except.ok [],
    dialog_filter_manager_ := Except.ok [],
    dialog_invite_link_manager_ := Except.ok [],
    dialog_manager_ := Except.ok [],
    dialog_participant_manager_ := Except.ok [],
    documents_manager_ := Except.ok [],
    download_manager_ := Except.ok [],
    file_reference_manager_ := Except.ok [],
    forum_topic_manager_ := Except.ok [],
    game_manager_ := Except.ok [],
    group_call_manager_ := Except.ok [],
    inline_queries_manager_ := Except.ok [],
    link_manager_ := Except.ok [],
    message_import_manager_ := Except.ok [],
    messages_manager_ := Except.ok [],
    notification_manager_ := Except.ok [],
    notification_settings_manager_ := Except.ok [],
    option_manager_ := Except.ok [],
    people_nearby_manager_ := Except.ok [],
    poll_manager_ := Except.ok [],
    privacy_manager_ := Except.ok [],
    quick_reply_manager_ := Except.ok [],
    reaction_manager_ := Except.ok [],
    saved_messages_manager_ := Except.ok [],
    sponsored_message_manager_ := Except.ok [],
    statistics_manager_ := Except.ok [],
    stickers_manager_ := Except.ok [],
    story_manager_ := Except.ok [],
    theme_manager_ := Except.ok [],
    time_zone_manager_ := Except.ok [],
    top_dialog_manager_ := Except.ok [],
    transcription_manager_ := Except.ok [],
    translation_manager_ := Except.ok [],
    updates_manager_ := Except.ok [],
    video_notes_manager_ := Except.ok [],
    videos_manager_ := Except.ok [],
    voice_notes_manager_ := Except.ok [],
    web_pages_manager_ := Except.ok [] }

/-- The registry prefix of `tdE1` before its failing provider: the one
succeeding provider registered ahead of business_connection_manager_. -/
def tdE1Good : List (String × Except Unit (List String)) :=
  [("file_manager_", Except.ok [])]

/-- The registry suffix of `tdE1` after its failing provider: the 60
providers registered behind business_connection_manager_. -/
def tdE1Rest : List (String × Except Unit (List String)) :=
  [("channel_recommendation_manager_", Except.ok []),
   ("chat_manager_", Except.ok []),
   ("connection_state_manager_", Except.ok []),
   ("inline_message_manager_", Except.ok []),
   ("online_manager_", Except.ok []),
   ("promo_data_manager_", Except.ok []),
   ("star_manager_", Except.ok []),
   ("terms_of_service_manager_", Except.ok []),
   ("user_manager_", Except.ok []),
   ("account_manager_", Except.ok []),
   ("animations_manager_", Except.ok []),
   ("attach_menu_manager_", Except.ok []),
   ("audios_manager_", Except.ok []),
   ("auth_manager_", Except.ok []),
   ("autosave_manager_", Except.ok []),
   ("background_manager_", Except.ok []),
   ("boost_manager_", Except.ok []),
   ("bot_info_manager_", Except.ok []),
   ("business_manager_", Except.ok []),
   ("callback_queries_manager_", Except.ok []),
   ("common_dialog_manager_", Except.ok []),
   ("country_info_manager_", Except.ok []),
   ("dialog_action_manager_", Except.ok []),
   ("dialog_filter_manager_", Except.ok []),
   ("dialog_invite_link_manager_", Except.ok []),
   ("dialog_manager_", Except.ok []),
   ("dialog_participant_manager_", Except.ok []),
   ("documents_manager_", Except.ok []),
   ("download_manager_", Except.ok []),
   ("file_reference_manager_", Except.ok []),
   ("forum_topic_manager_", Except.ok []),
   ("game_manager_", Except.ok []),
   ("group_call_manager_", Except.ok []),
   ("inline_queries_manager_", Except.ok []),
   ("link_manager_", Except.ok []),
   ("message_import_manager_", Except.ok []),
   ("messages_manager_", Except.ok []),
   ("notification_manager_", Except.ok []),
   ("notification_settings_manager_", Except.ok []),
   ("option_manager_", Except.ok []),
   ("people_nearby_manager_", Except.ok []),
   ("poll_manager_", Except.ok []),
   ("privacy_manager_", Except.ok []),
   ("quick_reply_manager_", Except.ok []),
   ("reaction_manager_", Except.ok []),
   ("saved_messages_manager_", Except.ok []),
   ("sponsored_message_manager_", Except.ok []),
   ("statistics_manager_", Except.ok []),
   ("stickers_manager_", Except.ok []),
   ("story_manager_", Except.ok []),
   ("theme_manager_", Except.ok []),
   ("time_zone_manager_", Except.ok []),
   ("top_dialog_manager_", Except.ok []),
   ("transcription_manager_", Except.ok []),
   ("translation_manager_", Except.ok []),
   ("updates_manager_", Except.ok []),
   ("video_notes_manager_", Except.ok []),
   ("videos_manager_", Except.ok []),
   ("voice_notes_manager_", Except.ok []),
   ("web_pages_manager_", Except.ok [])]

/-- Helper recursion: the comma-separated sequence of provider entries, one
step of `print_managers_memory_stats` per registry element.
`print_managers_eq_assembleEntries` proves the literal 62-step statement
sequence of the source definitionally equal to this recursion on its
registry. -/
def assembleEntries : List (String × List String) → AssemblyState → AssemblyState
  | [], st => st
  | [p], st => providerEntry p.1 p.2 st
  | p :: rest, st => assembleEntries rest (push_back "," (providerEntry p.1 p.2 st))

/-- Helper recursion for the fallible model, mirroring `assembleEntries`: one
step of `print_managers_memory_statsE` per registry element;
`print_managersE_eq_assembleEntriesE` proves the literal 62-step statement
sequence definitionally equal to this recursion on the fallible registry. -/
def assembleEntriesE : List (String × Except Unit (List String)) → AssemblyStateE → AssemblyStateE
  | [], st => st
  | [p], st => providerEntryE p.1 p.2 st
  | p :: rest, st => assembleEntriesE rest (pushE "," (providerEntryE p.1 p.2 st))

theorem assembleEntries_eq (regs : List (String × List String)) (st : AssemblyState) :
    assembleEntries regs st =
      { output := st.output ++ commaSeparate (regs.map entryPieces),
        calls := st.calls ++ regs.map (fun p => ⟨p.1, none⟩) } := by
  induction regs generalizing st with
  | nil => simp [assembleEntries, commaSeparate]
  | cons p rest ih =>
    cases rest with
    | nil =>
      simp [assembleEntries, commaSeparate, providerEntry, push_back,
            invoke_memory_stats, entryPieces, List.append_assoc]
    | cons q rest2 =>
      simp [assembleEntries, ih, commaSeparate, providerEntry, push_back,
            invoke_memory_stats, entryPieces, List.append_assoc]

theorem print_managers_eq_assembleEntries (td : Td) (st : AssemblyState) :
    print_managers_memory_stats td st = assembleEntries (registry td) st := rfl

/-- What `print_managers_memory_stats` does to the buffer and the trace: it
appends the comma-separated provider entries in registry order and records one
invocation per provider, in that order. -/
theorem print_managers_output (td : Td) (st : AssemblyState) :
    print_managers_memory_stats td st =
      { output := st.output ++ commaSeparate ((registry td).map entryPieces),
        calls := st.calls ++ managerNames.map (fun n => ⟨n, none⟩) } := by
  rw [print_managers_eq_assembleEntries, assembleEntries_eq]
  rfl

/-- Full characterization of one `get_memory_stats` call: provider state
unchanged, exactly one promise resolution carrying the assembled report, one
invocation per registered provider in registry order. -/
theorem get_memory_stats_eq (td : Td) (full : Bool) :
    get_memory_stats td full =
      { td := td,
        resolutions := [⟨assembleReport (registry td)⟩],
        calls := managerNames.map (fun n => ⟨n, none⟩) } := by
  simp only [get_memory_stats, push_back]
  rw [print_managers_output]
  simp [assembleReport, assembleReportPieces, List.append_assoc]

theorem managerNames_nodup : managerNames.Nodup := by decide

/-- Spec section 8's N=1 test vector, checked against the registry-generic
assembler: one provider named `x` producing fragment `"a":1`. -/
theorem assembleReport_single_provider :
    assembleReport [("x", ["\"a\":1"])] = "\x7b\"memory_stats\":\x7b\"x\":\x7b\"a\":1\x7d\x7d\x7d" := by
  decide

/-- Concrete end-to-end evaluation of the embedding, at the entry level: with
every provider appending nothing, the comma-separated entry pieces are exactly
one empty entry per registered provider, in registry order. -/
theorem report_td0_pieces_inner :
    commaSeparate ((registry td0).map entryPieces) = ["\"file_manager_\":\x7b", "\x7d", ",", "\"business_connection_manager_\":\x7b", "\x7d", ",", "\"channel_recommendation_manager_\":\x7b", "\x7d", ",", "\"chat_manager_\":\x7b", "\x7d", ",", "\"connection_state_manager_\":\x7b", "\x7d", ",", "\"inline_message_manager_\":\x7b", "\x7d", ",", "\"online_manager_\":\x7b", "\x7d", ",", "\"promo_data_manager_\":\x7b", "\x7d", ",", "\"star_manager_\":\x7b", "\x7d", ",", "\"terms_of_service_manager_\":\x7b", "\x7d", ",", "\"user_manager_\":\x7b", "\x7d", ",", "\"account_manager_\":\x7b", "\x7d", ",", "\"animations_manager_\":\x7b", "\x7d", ",", "\"attach_menu_manager_\":\x7b", "\x7d", ",", "\"audios_manager_\":\x7b", "\x7d", ",", "\"auth_manager_\":\x7b", "\x7d", ",", "\"autosave_manager_\":\x7b", "\x7d", ",", "\"background_manager_\":\x7b", "\x7d", ",", "\"boost_manager_\":\x7b", "\x7d", ",", "\"bot_info_manager_\":\x7b", "\x7d", ",", "\"business_manager_\":\x7b", "\x7d", ",", "\"callback_queries_manager_\":\x7b", "\x7d", ",", "\"common_dialog_manager_\":\x7b", "\x7d", ",", "\"country_info_manager_\":\x7b", "\x7d", ",", "\"dialog_action_manager_\":\x7b", "\x7d", ",", "\"dialog_filter_manager_\":\x7b", "\x7d", ",", "\"dialog_invite_link_manager_\":\x7b", "\x7d", ",", "\"dialog_manager_\":\x7b", "\x7d", ",", "\"dialog_participant_manager_\":\x7b", "\x7d", ",", "\"documents_manager_\":\x7b", "\x7d", ",", "\"download_manager_\":\x7b", "\x7d", ",", "\"file_reference_manager_\":\x7b", "\x7d", ",", "\"forum_topic_manager_\":\x7b", "\x7d", ",", "\"game_manager_\":\x7b", "\x7d", ",", "\"group_call_manager_\":\x7b", "\x7d", ",", "\"inline_queries_manager_\":\x7b", "\x7d", ",", "\"link_manager_\":\x7b", "\x7d", ",", "\"message_import_manager_\":\x7b", "\x7d", ",", "\"messages_manager_\":\x7b", "\x7d", ",", "\"notification_manager_\":\x7b", "\x7d", ",", "\"notification_settings_manager_\":\x7b", "\x7d", ",", "\"option_manager_\":\x7b", "\x7d", ",", "\"people_nearby_manager_\":\x7b", "\x7d", ",", "\"poll_manager_\":\x7b", "\x7d", ",", "\"privacy_manager_\":\x7b", "\x7d", ",", "\"quick_reply_manager_\":\x7b", "\x7d", ",", "\"reaction_manager_\":\x7b", "\x7d", ",", "\"saved_messages_manager_\":\x7b", "\x7d", ",", "\"sponsored_message_manager_\":\x7b", "\x7d", ",", "\"statistics_manager_\":\x7b", "\x7d", ",", "\"stickers_manager_\":\x7b", "\x7d", ",", "\"story_manager_\":\x7b", "\x7d", ",", "\"theme_manager_\":\x7b", "\x7d", ",", "\"time_zone_manager_\":\x7b", "\x7d", ",", "\"top_dialog_manager_\":\x7b", "\x7d", ",", "\"transcription_manager_\":\x7b", "\x7d", ",", "\"translation_manager_\":\x7b", "\x7d", ",", "\"updates_manager_\":\x7b", "\x7d", ",", "\"video_notes_manager_\":\x7b", "\x7d", ",", "\"videos_manager_\":\x7b", "\x7d", ",", "\"voice_notes_manager_\":\x7b", "\x7d", ",", "\"web_pages_manager_\":\x7b", "\x7d"] := by
  decide

/-- Concrete end-to-end evaluation of the embedding: with every provider
appending nothing, the delivered report is exactly the envelope around the
62 empty entries of `report_td0_pieces_inner`. -/
theorem report_td0_pieces :
    (get_memory_stats td0 true).resolutions =
      [MemoryStats.mk (String.join (["\x7b", "\"memory_stats\":\x7b"] ++ ["\"file_manager_\":\x7b", "\x7d", ",", "\"business_connection_manager_\":\x7b", "\x7d", ",", "\"channel_recommendation_manager_\":\x7b", "\x7d", ",", "\"chat_manager_\":\x7b", "\x7d", ",", "\"connection_state_manager_\":\x7b", "\x7d", ",", "\"inline_message_manager_\":\x7b", "\x7d", ",", "\"online_manager_\":\x7b", "\x7d", ",", "\"promo_data_manager_\":\x7b", "\x7d", ",", "\"star_manager_\":\x7b", "\x7d", ",", "\"terms_of_service_manager_\":\x7b", "\x7d", ",", "\"user_manager_\":\x7b", "\x7d", ",", "\"account_manager_\":\x7b", "\x7d", ",", "\"animations_manager_\":\x7b", "\x7d", ",", "\"attach_menu_manager_\":\x7b", "\x7d", ",", "\"audios_manager_\":\x7b", "\x7d", ",", "\"auth_manager_\":\x7b", "\x7d", ",", "\"autosave_manager_\":\x7b", "\x7d", ",", "\"background_manager_\":\x7b", "\x7d", ",", "\"boost_manager_\":\x7b", "\x7d", ",", "\"bot_info_manager_\":\x7b", "\x7d", ",", "\"business_manager_\":\x7b", "\x7d", ",", "\"callback_queries_manager_\":\x7b", "\x7d", ",", "\"common_dialog_manager_\":\x7b", "\x7d", ",", "\"country_info_manager_\":\x7b", "\x7d", ",", "\"dialog_action_manager_\":\x7b", "\x7d", ",", "\"dialog_filter_manager_\":\x7b", "\x7d", ",", "\"dialog_invite_link_manager_\":\x7b", "\x7d", ",", "\"dialog_manager_\":\x7b", "\x7d", ",", "\"dialog_participant_manager_\":\x7b", "\x7d", ",", "\"documents_manager_\":\x7b", "\x7d", ",", "\"download_manager_\":\x7b", "\x7d", ",", "\"file_reference_manager_\":\x7b", "\x7d", ",", "\"forum_topic_manager_\":\x7b", "\x7d", ",", "\"game_manager_\":\x7b", "\x7d", ",", "\"group_call_manager_\":\x7b", "\x7d", ",", "\"inline_queries_manager_\":\x7b", "\x7d", ",", "\"link_manager_\":\x7b", "\x7d", ",", "\"message_import_manager_\":\x7b", "\x7d", ",", "\"messages_manager_\":\x7b", "\x7d", ",", "\"notification_manager_\":\x7b", "\x7d", ",", "\"notification_settings_manager_\":\x7b", "\x7d", ",", "\"option_manager_\":\x7b", "\x7d", ",", "\"people_nearby_manager_\":\x7b", "\x7d", ",", "\"poll_manager_\":\x7b", "\x7d", ",", "\"privacy_manager_\":\x7b", "\x7d", ",", "\"quick_reply_manager_\":\x7b", "\x7d", ",", "\"reaction_manager_\":\x7b", "\x7d", ",", "\"saved_messages_manager_\":\x7b", "\x7d", ",", "\"sponsored_message_manager_\":\x7b", "\x7d", ",", "\"statistics_manager_\":\x7b", "\x7d", ",", "\"stickers_manager_\":\x7b", "\x7d", ",", "\"story_manager_\":\x7b", "\x7d", ",", "\"theme_manager_\":\x7b", "\x7d", ",", "\"time_zone_manager_\":\x7b", "\x7d", ",", "\"top_dialog_manager_\":\x7b", "\x7d", ",", "\"transcription_manager_\":\x7b", "\x7d", ",", "\"translation_manager_\":\x7b", "\x7d", ",", "\"updates_manager_\":\x7b", "\x7d", ",", "\"video_notes_manager_\":\x7b", "\x7d", ",", "\"videos_manager_\":\x7b", "\x7d", ",", "\"voice_notes_manager_\":\x7b", "\x7d", ",", "\"web_pages_manager_\":\x7b", "\x7d"] ++ ["\x7d", "\x7d"]))] := by
  rw [get_memory_stats_eq]
  simp [assembleReport, assembleReportPieces, report_td0_pieces_inner]

/-- C1: for every state of the providers, the string delivered by
`get_memory_stats` has the exact envelope shape
`{"memory_stats":{"<name_1>":{<fragment_1>},...,"<name_n>":{<fragment_n>}}}`:
it is the concatenation of the opening pieces `{` and `"memory_stats":{`, then
one `"<name>":{<fragment>}` entry per registered provider (name verbatim,
`entryPieces`), entries separated by single commas with no trailing comma
(`commaSeparate`), in registry order (`registry`), then the closing `}}`;
the registry's keys are the source's 62 manager names in source order and no
key occurs twice. -/
theorem c1_envelope_shape (td : Td) (full : Bool) :
    (get_memory_stats td full).resolutions =
      [⟨String.join (["\x7b", "\"memory_stats\":\x7b"] ++
          commaSeparate ((registry td).map entryPieces) ++ ["\x7d", "\x7d"])⟩] ∧
    (registry td).map Prod.fst = managerNames ∧
    managerNames.Nodup := by
  refine ⟨?_, rfl, managerNames_nodup⟩
  rw [get_memory_stats_eq]
  simp [assembleReport, assembleReportPieces]

/-- C2: every call to `get_memory_stats` (any `full`, any provider state)
resolves the promise exactly once - the resolution list has length one - and
the resolved value is a `MemoryStats` whose `debug` attribute is the fully
assembled report string. -/
theorem c2_promise_resolved_exactly_once (td : Td) (full : Bool) :
    (get_memory_stats td full).resolutions.length = 1 ∧
    (get_memory_stats td full).resolutions = [MemoryStats.mk (assembleReport (registry td))] := by
  rw [get_memory_stats_eq]
  exact ⟨rfl, rfl⟩

/-- C3: within a single `get_memory_stats` call, the invocation trace is
exactly one `memory_stats` invocation per registered provider, in registry
order (the trace equals the registry's name sequence, which has no
duplicates, so each provider is invoked exactly once and the invocations are
strictly in registry order). -/
theorem c3_providers_invoked_once_in_order (td : Td) (full : Bool) :
    (get_memory_stats td full).calls = managerNames.map (fun n => Invocation.mk n none) ∧
    (registry td).map Prod.fst = managerNames ∧
    managerNames.Nodup := by
  refine ⟨?_, rfl, managerNames_nodup⟩
  rw [get_memory_stats_eq]

/-- C4: calling `get_memory_stats` twice in succession with unchanged provider
state (the state delivered back by the first call) yields byte-identical
result strings. -/
theorem c4_idempotent (td : Td) (full : Bool) :
    ((get_memory_stats ((get_memory_stats td full).td) full).resolutions.map MemoryStats.debug) =
      ((get_memory_stats td full).resolutions.map MemoryStats.debug) := rfl

/-- C5: for an empty provider registry (N=0), the assembled report equals
exactly `{"memory_stats":{}}` (stated against the registry-generic assembler
`assembleReport`, which `c1_envelope_shape` and `get_memory_stats_eq` prove
the source realizes on its hard-coded registry; the source's own registry is
fixed at 62 providers and cannot be empty). -/
theorem c5_empty_registry :
    assembleReport [] = "\x7b\"memory_stats\":\x7b\x7d\x7d" := by
  decide

/-- C6 counterexample: the claim says the `full` flag is passed through
unchanged to each provider's `memory_stats` invocation; at the concrete state
`td0` with `full = true` this is false - no invocation in the trace carries
the flag, because every call site passes only the output buffer. -/
theorem c6_full_not_forwarded_cex :
    ¬ (∀ inv ∈ (get_memory_stats td0 true).calls, inv.fullArg = some true) := by
  decide

/-- C6 (amended): the `full` flag received by `get_memory_stats` is not
forwarded to any provider's `memory_stats` invocation (no invocation carries
it - each call site passes only the output buffer), and the aggregator itself
assigns no meaning to it (the whole observable result is independent of
`full`). -/
theorem c6_full_ignored (td : Td) (full : Bool) :
    (get_memory_stats td full).calls = managerNames.map (fun n => Invocation.mk n none) ∧
    get_memory_stats td full = get_memory_stats td false := by
  refine ⟨?_, rfl⟩
  rw [get_memory_stats_eq]

/-- C7 counterexample: the claim says that if one provider's fragment
generation fails, every other provider's entry is still present in the final
report.  At the concrete state `tdE0` (first registered provider fails, all
61 others succeed) no final report exists at all - the promise is resolved
with nothing - and no provider after the failing one is even invoked. -/
theorem c7_no_fault_isolation_cex :
    (get_memory_statsE tdE0 true).calls = [Invocation.mk "file_manager_" none] ∧
    ¬ ∃ s, (get_memory_statsE tdE0 true).resolutions = [MemoryStats.mk s] := by
  constructor
  · decide
  · rintro ⟨s, hs⟩
    have h0 : (get_memory_statsE tdE0 true).resolutions = [] := by decide
    rw [h0] at hs
    exact List.noConfusion hs

/-- Fallible-model helper: the source's 62-step fallible statement sequence is
the `assembleEntriesE` recursion on the fallible registry. -/
theorem print_managersE_eq_assembleEntriesE (td : TdE) (st : AssemblyStateE) :
    print_managers_memory_statsE td st = assembleEntriesE (registryE td) st := rfl

/-- A one-step unfolding of `assembleEntriesE` valid whenever at least one
registry element remains after the head. -/
theorem assembleEntriesE_cons (p : String × Except Unit (List String))
    (l : List (String × Except Unit (List String))) (st : AssemblyStateE) (h : l ≠ []) :
    assembleEntriesE (p :: l) st = assembleEntriesE l (pushE "," (providerEntryE p.1 p.2 st)) := by
  cases l with
  | nil => exact absurd rfl h
  | cons q rest => rfl

/-- Once a provider failure is propagating, no later statement of the source
executes: the remaining assembly is the identity. -/
theorem assembleEntriesE_failed (regs : List (String × Except Unit (List String)))
    (st : AssemblyStateE) (h : st.failed = true) :
    assembleEntriesE regs st = st := by
  induction regs generalizing st with
  | nil => rfl
  | cons p rest ih =>
    cases rest with
    | nil => simp [assembleEntriesE, providerEntryE, pushE, invokeE, h]
    | cons q rest2 =>
      have h1 : providerEntryE p.1 p.2 st = st := by
        simp [providerEntryE, pushE, invokeE, h]
      have h2 : pushE "," st = st := by simp [pushE, h]
      rw [assembleEntriesE_cons _ _ _ (by simp), h1, h2]
      exact ih st h

/-- Running the entry sequence from a non-failed state over a registry whose
first failure sits at provider `bn` (every provider of the prefix `good`
succeeds): the run ends failed, and the invocation trace extends by exactly
the succeeding prefix followed by `bn` - no provider after the failing one is
invoked. -/
theorem assembleEntriesE_first_failure (good : List (String × Except Unit (List String)))
    (bn : String) (rest : List (String × Except Unit (List String)))
    (st : AssemblyStateE) (hst : st.failed = false)
    (hgood : ∀ p ∈ good, ∃ fs, p.2 = Except.ok fs) :
    (assembleEntriesE (good ++ (bn, Except.error ()) :: rest) st).failed = true ∧
    (assembleEntriesE (good ++ (bn, Except.error ()) :: rest) st).calls =
      (st.calls ++ good.map (fun p => ⟨p.1, none⟩)) ++ [⟨bn, none⟩] := by
  induction good generalizing st with
  | nil =>
    cases rest with
    | nil =>
      simp [assembleEntriesE, providerEntryE, pushE, invokeE, hst]
    | cons q rest2 =>
      rw [List.nil_append, assembleEntriesE_cons _ _ _ (by simp)]
      have h1 : (pushE "," (providerEntryE bn (Except.error ()) st)).failed = true := by
        simp [providerEntryE, pushE, invokeE, hst]
      rw [assembleEntriesE_failed _ _ h1]
      refine ⟨h1, ?_⟩
      simp [providerEntryE, pushE, invokeE, hst]
  | cons p good2 ih =>
    obtain ⟨fs, hp⟩ := hgood p (by simp)
    rw [List.cons_append, assembleEntriesE_cons _ _ _ (by simp)]
    have hok : (pushE "," (providerEntryE p.1 p.2 st)).failed = false := by
      simp [providerEntryE, pushE, invokeE, hst, hp]
    obtain ⟨hf, hc⟩ := ih (pushE "," (providerEntryE p.1 p.2 st)) hok
      (fun q hq => hgood q (List.mem_cons_of_mem p hq))
    refine ⟨hf, ?_⟩
    rw [hc]
    have hcalls : (pushE "," (providerEntryE p.1 p.2 st)).calls = st.calls ++ [⟨p.1, none⟩] := by
      simp [providerEntryE, pushE, invokeE, hst, hp]
    rw [hcalls]
    simp [List.append_assoc]

/-- C7 (amended): the source wraps no provider call in any failure handler, so
a failure in one provider's fragment generation aborts the whole assembly at
the first failing provider, wherever it sits in the registry: for any
provider state whose registry splits as a succeeding prefix `good`, a failing
provider `bn`, and an arbitrary remainder, the providers of `good` and then
`bn` are the only ones invoked (in registry order), the promise is never
resolved, and the failure propagates out of the call. -/
theorem c7_failure_aborts_assembly (td : TdE) (full : Bool)
    (good rest : List (String × Except Unit (List String))) (bn : String)
    (hreg : registryE td = good ++ (bn, Except.error ()) :: rest)
    (hgood : ∀ p ∈ good, ∃ fs, p.2 = Except.ok fs) :
    (get_memory_statsE td full).resolutions = [] ∧
    (get_memory_statsE td full).failed = true ∧
    (get_memory_statsE td full).calls =
      good.map (fun p => Invocation.mk p.1 none) ++ [Invocation.mk bn none] := by
  obtain ⟨hf, hc⟩ := assembleEntriesE_first_failure good bn rest
    { output := ["\x7b", "\"memory_stats\":\x7b"], calls := [], failed := false } rfl hgood
  rw [← hreg] at hf hc
  simp only [get_memory_statsE, print_managersE_eq_assembleEntriesE]
  simp [pushE, hf, hc]

/-- C7 witness: the amended statement at the concrete state `tdE1`, whose
failing provider (business_connection_manager_) is not the first registered
one - the provider before it is invoked, the 60 after it are not, and the
promise is never resolved. -/
theorem c7_failure_aborts_assembly_witness :
    registryE tdE1 = tdE1Good ++ ("business_connection_manager_", Except.error ()) :: tdE1Rest ∧
    ((get_memory_statsE tdE1 true).resolutions = [] ∧
     (get_memory_statsE tdE1 true).failed = true ∧
     (get_memory_statsE tdE1 true).calls =
       tdE1Good.map (fun p => Invocation.mk p.1 none) ++
         [Invocation.mk "business_connection_manager_" none]) :=
  ⟨rfl,
   c7_failure_aborts_assembly tdE1 true tdE1Good tdE1Rest "business_connection_manager_" rfl
     (fun p hp => by
       simp only [tdE1Good, List.mem_singleton] at hp
       exact ⟨[], by rw [hp]⟩)⟩

/-- C8: for every session mode - bot and non-bot alike - `get_current_state`
appends zero entries to the caller-supplied updates sequence and leaves all
aggregator state unchanged. -/
theorem c8_get_current_state_noop (td : Td) (updates : List Update) :
    get_current_state td updates = (td, updates) := by
  simp [get_current_state]

/-- C9: `get_memory_stats` has no side effects beyond reading the providers -
the provider and aggregator state after the call is the state before it. -/
theorem c9_no_state_mutation (td : Td) (full : Bool) :
    (get_memory_stats td full).td = td := rfl

/-- C10: two `get_memory_stats` calls in the same provider state with
different values of `full` produce identical observable results (same
resolutions, same invocation trace, same final state): the output does not
depend on `full` at all. -/
theorem c10_output_independent_of_full (td : Td) (b1 b2 : Bool) :
    get_memory_stats td b1 = get_memory_stats td b2 := rfl

end MemMgr
